import Mathlib

/-!
Verification of the ANSI styling module (`src/ansistyle.rs`) of the
`indicatif` repository: a shallow embedding of the `Color` and `Style`
enumerations, the `Styled` wrapper with its builder methods, the
environment-driven styling policy `supports_styling`, and the render-time
escape-sequence emission of the `impl_fmt` implementations.
-/

namespace AnsiStyle

/-- The eight ANSI base colors, as in `enum Color` of `src/ansistyle.rs`. -/
inductive Color where
  | black
  | red
  | green
  | yellow
  | blue
  | magenta
  | cyan
  | white
  deriving DecidableEq, Repr

/-- Translation of `Color::ansi_num`. -/
def Color.ansi_num : Color → Nat
  | .black => 0
  | .red => 1
  | .green => 2
  | .yellow => 3
  | .blue => 4
  | .magenta => 5
  | .cyan => 6
  | .white => 7

/-- The six ANSI text attributes, as in `enum Style` of `src/ansistyle.rs`. -/
inductive Style where
  | bold
  | dim
  | underlined
  | blink
  | reverse
  | hidden
  deriving DecidableEq, Repr

/-- Translation of `Style::ansi_num`. -/
def Style.ansi_num : Style → Nat
  | .bold => 1
  | .dim => 2
  | .underlined => 4
  | .blink => 5
  | .reverse => 7
  | .hidden => 8

/-- The rank of a `Style` under the derived `Ord` instance of the Rust enum,
which is declaration order; this is the key order of the `BTreeSet<Style>`. -/
def Style.rank : Style → Nat
  | .bold => 0
  | .dim => 1
  | .underlined => 2
  | .blink => 3
  | .reverse => 4
  | .hidden => 5

/-- Ordered insertion into the sorted duplicate-free list that models
`BTreeSet<Style>`: an element with an already-present key is not added again,
as in `BTreeSet::insert`. -/
def insertStyle (a : Style) : List Style → List Style
  | [] => [a]
  | b :: l =>
    if a.rank < b.rank then a :: b :: l
    else if a.rank = b.rank then b :: l
    else b :: insertStyle a l

/-- The struct `Styled<D>`: the fields of the Rust struct, with the
`BTreeSet<Style>` modelled as its sorted iteration sequence. -/
structure Styled (D : Type) where
  fg : Option Color
  bg : Option Color
  styles : List Style
  force : Option Bool
  val : D

variable {D : Type}

/-- Translation of the free function `style`, the only constructor. -/
def style (val : D) : Styled D :=
  { fg := none, bg := none, styles := [], force := none, val := val }

/-- Translation of `Styled::force_styling`. -/
def Styled.force_styling (s : Styled D) (value : Bool) : Styled D :=
  { s with force := some value }

/-- Translation of `Styled::fg` (named `setFg` because the field keeps the
source name `fg`). -/
def Styled.setFg (s : Styled D) (color : Color) : Styled D :=
  { s with fg := some color }

/-- Translation of `Styled::bg`. -/
def Styled.setBg (s : Styled D) (color : Color) : Styled D :=
  { s with bg := some color }

/-- Translation of `Styled::style`, the attribute-set insertion. -/
def Styled.addStyle (s : Styled D) (st : Style) : Styled D :=
  { s with styles := insertStyle st s.styles }

def Styled.black (s : Styled D) : Styled D := s.setFg .black
def Styled.red (s : Styled D) : Styled D := s.setFg .red
def Styled.green (s : Styled D) : Styled D := s.setFg .green
def Styled.yellow (s : Styled D) : Styled D := s.setFg .yellow
def Styled.blue (s : Styled D) : Styled D := s.setFg .blue
def Styled.magenta (s : Styled D) : Styled D := s.setFg .magenta
def Styled.cyan (s : Styled D) : Styled D := s.setFg .cyan
def Styled.white (s : Styled D) : Styled D := s.setFg .white
def Styled.on_black (s : Styled D) : Styled D := s.setBg .black
def Styled.on_red (s : Styled D) : Styled D := s.setBg .red
def Styled.on_green (s : Styled D) : Styled D := s.setBg .green
def Styled.on_yellow (s : Styled D) : Styled D := s.setBg .yellow
def Styled.on_blue (s : Styled D) : Styled D := s.setBg .blue
def Styled.on_magenta (s : Styled D) : Styled D := s.setBg .magenta
def Styled.on_cyan (s : Styled D) : Styled D := s.setBg .cyan
def Styled.on_white (s : Styled D) : Styled D := s.setBg .white
def Styled.bold (s : Styled D) : Styled D := s.addStyle .bold
def Styled.dim (s : Styled D) : Styled D := s.addStyle .dim
def Styled.underlined (s : Styled D) : Styled D := s.addStyle .underlined
def Styled.blink (s : Styled D) : Styled D := s.addStyle .blink
def Styled.reverse (s : Styled D) : Styled D := s.addStyle .reverse
def Styled.hidden (s : Styled D) : Styled D := s.addStyle .hidden

/-- The decimal ASCII bytes of a number, as the Display of `usize` writes
them inside `write!(f, "\x1b[{}m", n)`. -/
def decimalBytes (n : Nat) : List Nat :=
  (Nat.toDigits 10 n).map Char.toNat

/-- The bytes of one SGR escape sequence `ESC [ n m`. -/
def escBytes (n : Nat) : List Nat :=
  27 :: 91 :: (decimalBytes n ++ [109])

/-- Bytes written by the `if let Some(fg) = self.fg` block. -/
def fgBytes : Option Color → List Nat
  | some c => escBytes (c.ansi_num + 30)
  | none => []

/-- Bytes written by the `if let Some(bg) = self.bg` block. -/
def bgBytes : Option Color → List Nat
  | some c => escBytes (c.ansi_num + 40)
  | none => []

/-- Bytes written by the `for style in &self.styles` loop, in the
`BTreeSet` iteration order. -/
def stylesBytes (l : List Style) : List Nat :=
  (l.map fun st => escBytes st.ansi_num).flatten

/-- The escape prologue written before the inner value when the effective
styling decision `eff` is on, and nothing otherwise. -/
def prologueBytes (s : Styled D) (eff : Bool) : List Nat :=
  if eff then fgBytes s.fg ++ bgBytes s.bg ++ stylesBytes s.styles else []

/-- The value of the mutable `reset` flag after the prologue: it was set to
`true` exactly when the styling branch was taken and at least one of the
three emissions (foreground, background, a loop iteration) happened. -/
def resetFlag (s : Styled D) (eff : Bool) : Bool :=
  eff && (s.fg.isSome || s.bg.isSome || !s.styles.isEmpty)

/-- Translation of the `fmt` method generated by `impl_fmt!`: `inner`
renders the wrapped value (the bytes it writes to the formatter, and
whether it succeeded, modelling `fmt::Result`), `policy` is the value the
global `should_style()` returns during this render.  The effective decision
is `self.force.unwrap_or_else(should_style)`; on inner failure the `?`
operator returns the error at once, so the reset escape is not written. -/
def Styled.fmtWith (inner : D → List Nat × Bool) (policy : Bool)
    (s : Styled D) : List Nat × Bool :=
  let eff := s.force.getD policy
  let pro := prologueBytes s eff
  let res := inner s.val
  if res.2 then
    if resetFlag s eff then (pro ++ res.1 ++ escBytes 0, true)
    else (pro ++ res.1, true)
  else (pro ++ res.1, false)

/-- The Display rendering of a Rust `&str`: its bytes, always succeeding. -/
def strDisplay (s : String) : List Nat × Bool :=
  (s.toList.map Char.toNat, true)

/-- Translation of the free function `supports_styling`, which computes the
initial value of the `ENABLE_STYLING` atomic: the two environment variables
are passed as `Option String` (with `env::var(..).unwrap_or("0")` becoming
`Option.getD _ "0"`) and the terminal check as a boolean. -/
def supports_styling (clicolor clicolor_force : Option String)
    (is_a_terminal : Bool) : Bool :=
  (clicolor.getD "0" != "0" && is_a_terminal) || (clicolor_force.getD "0" != "0")

/-- Claim C1: `style("x").on_blue().bold().force_styling(true)` renders,
under every global policy value, exactly the bytes
`ESC[44m ESC[1m x ESC[0m` (27 91 52 52 109, 27 91 49 109, 120, 27 91 48
109): foreground first (absent here), then background, then attributes,
then the inner rendering, then the reset. -/
theorem combined_example_renders :
    ∀ policy : Bool,
      Styled.fmtWith strDisplay policy
        (((style "x").on_blue.bold).force_styling true) =
      ([27, 91, 52, 52, 109, 27, 91, 49, 109, 120, 27, 91, 48, 109], true) := by
  decide

/-- Claim C2: `style("hi").red().force_styling(true)` renders exactly the
bytes `ESC[31m hi ESC[0m` (27 91 51 49 109, 104, 105, 27 91 48 109) for
every value of the global styling policy. -/
theorem round_trip_red :
    ∀ policy : Bool,
      Styled.fmtWith strDisplay policy ((style "hi").red.force_styling true) =
      ([27, 91, 51, 49, 109, 104, 105, 27, 91, 48, 109], true) := by
  decide

/-- Claim C8: setting the foreground twice keeps the last value:
`style("x").red().green().force_styling(true)` renders with the green
foreground code 32 (bytes 27 91 51 50 109), not the red code 31. -/
theorem last_write_wins :
    ∀ policy : Bool,
      Styled.fmtWith strDisplay policy
        (((style "x").red.green).force_styling true) =
      ([27, 91, 51, 50, 109, 120, 27, 91, 48, 109], true) := by
  decide

/-- Membership in an ordered insertion comes from the inserted element or
from the original list. -/
theorem mem_insertStyle {x a : Style} : ∀ {l : List Style},
    x ∈ insertStyle a l → x = a ∨ x ∈ l := by
  intro l
  induction l with
  | nil =>
    intro h
    simp only [insertStyle, List.mem_singleton] at h
    exact Or.inl h
  | cons b l ih =>
    intro h
    by_cases h1 : a.rank < b.rank
    · simp only [insertStyle, if_pos h1] at h
      rcases List.mem_cons.mp h with h | h
      · exact Or.inl h
      · exact Or.inr h
    · by_cases h2 : a.rank = b.rank
      · simp only [insertStyle, if_neg h1, if_pos h2] at h
        exact Or.inr h
      · simp only [insertStyle, if_neg h1, if_neg h2] at h
        rcases List.mem_cons.mp h with h | h
        · exact Or.inr (List.mem_cons.mpr (Or.inl h))
        · rcases ih h with h3 | h3
          · exact Or.inl h3
          · exact Or.inr (List.mem_cons.mpr (Or.inr h3))

/-- Ordered insertion preserves the strict sortedness of the list that
models the `BTreeSet` key order. -/
theorem insertStyle_sorted {a : Style} : ∀ {l : List Style},
    List.Pairwise (fun x y => x.rank < y.rank) l →
    List.Pairwise (fun x y => x.rank < y.rank) (insertStyle a l) := by
  intro l
  induction l with
  | nil =>
    intro _
    simp only [insertStyle]
    exact List.pairwise_singleton _ _
  | cons b l ih =>
    intro h
    rcases List.pairwise_cons.mp h with ⟨hb, hl⟩
    by_cases h1 : a.rank < b.rank
    · simp only [insertStyle, if_pos h1]
      refine List.pairwise_cons.mpr ⟨?_, h⟩
      intro x hx
      rcases List.mem_cons.mp hx with rfl | hx
      · exact h1
      · exact Nat.lt_trans h1 (hb x hx)
    · by_cases h2 : a.rank = b.rank
      · simp only [insertStyle, if_neg h1, if_pos h2]
        exact h
      · simp only [insertStyle, if_neg h1, if_neg h2]
        refine List.pairwise_cons.mpr ⟨?_, ih hl⟩
        intro x hx
        rcases mem_insertStyle hx with rfl | hx
        · exact Nat.lt_of_le_of_ne (Nat.le_of_not_lt h1) (Ne.symm h2)
        · exact hb x hx

/-- The `BTreeSet` key order agrees with the order of the ANSI codes: the
ranks 0..5 map to the strictly increasing codes 1, 2, 4, 5, 7, 8. -/
theorem rank_lt_ansi_num_lt :
    ∀ a b : Style, a.rank < b.rank → a.ansi_num < b.ansi_num := by
  intro a b
  cases a <;> cases b <;> decide

/-- Inserting the same style twice is the same as inserting it once. -/
theorem insertStyle_idem (a : Style) : ∀ l : List Style,
    insertStyle a (insertStyle a l) = insertStyle a l
  | [] => by simp [insertStyle]
  | b :: l => by
    rcases Nat.lt_trichotomy a.rank b.rank with h | h | h
    · simp [insertStyle, h]
    · simp [insertStyle, h]
    · simp [insertStyle, Nat.lt_asymm h, Nat.ne_of_gt h, insertStyle_idem a l]

/-- The insertions of `Bold` and `Underlined` commute on every list. -/
theorem insertStyle_bold_underlined_comm : ∀ l : List Style,
    insertStyle .underlined (insertStyle .bold l) =
      insertStyle .bold (insertStyle .underlined l)
  | [] => rfl
  | c :: l => by
    cases c <;>
      simp [insertStyle, Style.rank, insertStyle_bold_underlined_comm l]

/-- Claim C3: for every wrapped value and configuration, `force_styling
true` renders independently of the global policy and exactly as an
unforced wrapper does under a true policy (so its escape codes are
emitted), while `force_styling false` renders exactly as the inner value,
with no escape codes, independently of the global policy. -/
theorem override_independence (inner : D → List Nat × Bool) (s : Styled D)
    (p q : Bool) :
    Styled.fmtWith inner p (s.force_styling true) =
      Styled.fmtWith inner q (s.force_styling true) ∧
    Styled.fmtWith inner p (s.force_styling true) =
      Styled.fmtWith inner true { s with force := none } ∧
    Styled.fmtWith inner p (s.force_styling false) = inner s.val := by
  refine ⟨rfl, rfl, ?_⟩
  rcases h : inner s.val with ⟨out, ok⟩
  cases ok <;>
    simp [Styled.fmtWith, Styled.force_styling, prologueBytes, resetFlag, h]

/-- Claim C5: a freshly built wrapper (no foreground, no background, empty
attribute set), even when forced on, renders exactly as the inner value:
no escape codes and no reset byte. -/
theorem noop_suppression (inner : D → List Nat × Bool) (p : Bool) (v : D) :
    Styled.fmtWith inner p ((style v).force_styling true) = inner v := by
  rcases h : inner v with ⟨out, ok⟩
  cases ok <;>
    simp [Styled.fmtWith, style, Styled.force_styling, prologueBytes,
      resetFlag, fgBytes, bgBytes, stylesBytes, h]

/-- Claim C6: on every wrapper whose attribute list satisfies the
`BTreeSet` sortedness invariant, `.bold().underlined()` and
`.underlined().bold()` render byte-identically, and the attribute list of
the result carries its ANSI codes in strictly ascending order, so the
attribute escapes are emitted ascending (Bold 1 before Underlined 4). -/
theorem attribute_order_independence (inner : D → List Nat × Bool)
    (p : Bool) (s : Styled D)
    (hs : List.Pairwise (fun x y => Style.rank x < Style.rank y) s.styles) :
    Styled.fmtWith inner p s.bold.underlined =
      Styled.fmtWith inner p s.underlined.bold ∧
    List.Pairwise (fun m n => m < n)
      ((s.bold.underlined).styles.map Style.ansi_num) := by
  constructor
  · have h : s.bold.underlined = s.underlined.bold := by
      simp [Styled.bold, Styled.underlined, Styled.addStyle,
        insertStyle_bold_underlined_comm]
    rw [h]
  · have h1 : List.Pairwise (fun x y => Style.rank x < Style.rank y)
        (s.bold.underlined).styles := by
      simp only [Styled.bold, Styled.underlined, Styled.addStyle]
      exact insertStyle_sorted (insertStyle_sorted hs)
    exact h1.map Style.ansi_num (fun x y hxy => rank_lt_ansi_num_lt x y hxy)

/-- Witness for claim C6 at the empty wrapper around the number 7. -/
theorem attribute_order_independence_witness :
    Styled.fmtWith (fun n : Nat => ([n], true)) true
        ((style 7).bold.underlined) =
      Styled.fmtWith (fun n : Nat => ([n], true)) true
        ((style 7).underlined.bold) ∧
    List.Pairwise (fun m n => m < n)
      (((style (7 : Nat)).bold.underlined).styles.map Style.ansi_num) :=
  attribute_order_independence (fun n : Nat => ([n], true)) true (style 7)
    List.Pairwise.nil

/-- Claim C7: inserting an attribute that is already present is a no-op:
`.bold().bold()` renders exactly as `.bold()`, on every wrapper, for every
inner renderer and every policy. -/
theorem attribute_idempotent (inner : D → List Nat × Bool) (p : Bool)
    (s : Styled D) :
    Styled.fmtWith inner p s.bold.bold = Styled.fmtWith inner p s.bold := by
  have h : s.bold.bold = s.bold := by
    simp [Styled.bold, Styled.addStyle, insertStyle_idem]
  rw [h]

/-- Claim C9: when the inner rendering fails, the failure propagates (the
result is an error) and the output ends with the prologue followed by
whatever the inner rendering wrote: the reset escape is never appended,
even though escape codes were already emitted. -/
theorem error_propagation (inner : D → List Nat × Bool) (p : Bool)
    (s : Styled D) (h : (inner s.val).2 = false) :
    Styled.fmtWith inner p s =
      (prologueBytes s (s.force.getD p) ++ (inner s.val).1, false) := by
  simp [Styled.fmtWith, h]

/-- Witness for claim C9: a red forced-on wrapper whose inner renderer
writes one byte and fails keeps the color escape, drops the reset. -/
theorem error_propagation_witness :
    Styled.fmtWith (fun _ : Nat => ([65], false)) false
        ((style 0).red.force_styling true) =
      ([27, 91, 51, 49, 109, 65], false) := by
  have h := error_propagation (fun _ : Nat => ([65], false)) false
    ((style 0).red.force_styling true) rfl
  rw [h]
  decide

/-- Claim C10: every builder operation sets only its own field and leaves
the other four fields of the wrapper unchanged; none of them touches the
wrapped value. -/
theorem builder_frame (s : Styled D) (c k : Color) (st : Style) (b : Bool) :
    ((s.setFg c).fg = some c ∧ (s.setFg c).bg = s.bg ∧
      (s.setFg c).styles = s.styles ∧ (s.setFg c).force = s.force ∧
      (s.setFg c).val = s.val) ∧
    ((s.setBg k).bg = some k ∧ (s.setBg k).fg = s.fg ∧
      (s.setBg k).styles = s.styles ∧ (s.setBg k).force = s.force ∧
      (s.setBg k).val = s.val) ∧
    ((s.addStyle st).styles = insertStyle st s.styles ∧
      (s.addStyle st).fg = s.fg ∧ (s.addStyle st).bg = s.bg ∧
      (s.addStyle st).force = s.force ∧ (s.addStyle st).val = s.val) ∧
    ((s.force_styling b).force = some b ∧ (s.force_styling b).fg = s.fg ∧
      (s.force_styling b).bg = s.bg ∧
      (s.force_styling b).styles = s.styles ∧
      (s.force_styling b).val = s.val) :=
  ⟨⟨rfl, rfl, rfl, rfl, rfl⟩, ⟨rfl, rfl, rfl, rfl, rfl⟩,
    ⟨rfl, rfl, rfl, rfl, rfl⟩, ⟨rfl, rfl, rfl, rfl, rfl⟩⟩

/-- Claim C4 fails as stated: with both environment variables absent (so
both default to the string zero) and the stream interactive, the initial
policy is `false`, not the value of the terminal-interactivity predicate. -/
theorem policy_default_counterexample :
    supports_styling none none true = false := by decide

/-- Claim C4, amended: the initial policy equals the stated formula with
absent variables read as the string zero; therefore with both variables
unset or zero the initial policy is `false` regardless of terminal
interactivity, and with `CLICOLOR_FORCE` set to one it is `true`
regardless of interactivity. -/
theorem policy_initial_value (c cf : Option String) (t : Bool) :
    (supports_styling c cf t = true ↔
      ((c.getD "0" ≠ "0" ∧ t = true) ∨ cf.getD "0" ≠ "0")) ∧
    supports_styling none none t = false ∧
    supports_styling (some "0") (some "0") t = false ∧
    supports_styling c (some "1") t = true := by
  refine ⟨?_, ?_, ?_, ?_⟩
  · simp [supports_styling, bne_iff_ne, Bool.or_eq_true, Bool.and_eq_true]
  · cases t <;> decide
  · cases t <;> decide
  · have h10 : ("1" != "0") = true := by decide
    simp [supports_styling, h10]

end AnsiStyle
